import Mathlib

/-!
# vinegar: GPU target resolution and configuration loading

A shallow embedding of `gpu/pick.go` (`HandleGpu`) and of `config.go`
(`defConfig`, `loadConfig`), followed by the properties proved about them.

Conventions of the embedding:

* a Go `map[string]string` is a finite map seen through its lookup function,
  `String → Option String` (`none` = key absent);
* a Go `error` value is its message; `nil` is `Option.none`;
* a Go `int` is a 64-bit two-complement integer: an `Int` in
  `[-2^63, 2^63)`, with `+` wrapping around (`wrapInt`);
* a run-time panic (index out of range) is the outcome `Outcome.panic`;
* the collaborators that `HandleGpu` calls (`GetSystemGPUs`, `PrimeIsAllowed`,
  the `ApplyEnv` method of a GPU) are defined in other files of the package
  and are taken as parameters, bundled in `Host` and `GPU`; every call of a
  collaborator is recorded in `Calls`.
-/

namespace Vinegar

/-! ## Data model -/

/-- A Go `map[string]string`, seen through its lookup function. -/
abbrev Env := String → Option String

/-- A Go `error` value, identified with its message. -/
structure GoError where
  msg : String
deriving DecidableEq, Repr

/-- A detected GPU. Only its `ApplyEnv` method is used by `HandleGpu`; the
method is a parameter of the model. -/
structure GPU where
  ApplyEnv : Env → Env

/-- The selection `target.TargetGPU`: fields `Id` (a Go `int`) and `Prime`. -/
structure TargetGPU where
  Id : Int
  Prime : Bool

/-- Smallest Go `int` (64 bit). -/
def minInt : Int := -(2 ^ 63)

/-- Largest Go `int` (64 bit). -/
def maxInt : Int := 2 ^ 63 - 1

/-- The value is representable as a Go `int`. -/
def IsGoInt (x : Int) : Prop := minInt ≤ x ∧ x ≤ maxInt

instance (x : Int) : Decidable (IsGoInt x) := by
  unfold IsGoInt; exact inferInstance

/-- Two-complement wrap-around of a mathematical integer to a Go `int`. -/
def wrapInt (x : Int) : Int := (x + 2 ^ 63) % 2 ^ 64 - 2 ^ 63

/-- The collaborators of `HandleGpu`: what `GetSystemGPUs()` enumerates and
what `PrimeIsAllowed(gpus, isVulkan)` answers (`(allowed, err)`). -/
structure Host where
  gpus : List GPU
  primeIsAllowed : List GPU → Bool → Bool × Option GoError

/-- Call counters of the two collaborators. -/
structure Calls where
  inventory : Nat
  eligibility : Nat
deriving DecidableEq, Repr

/-- What a call of `HandleGpu` does: it returns `(env, err)`, or it panics. -/
inductive Outcome where
  | ret (env : Env) (err : Option GoError)
  | panic

/-! ## `gpu/pick.go` -/

/-- The call `GetSystemGPUs()`: the inventory, and one more inventory query. -/
def GetSystemGPUs (h : Host) (c : Calls) : List GPU × Calls :=
  (h.gpus, Calls.mk (c.inventory + 1) c.eligibility)

/-- The call `PrimeIsAllowed(gpus, isVulkan)`: the answer, and one more
eligibility query. -/
def PrimeIsAllowed (h : Host) (gpus : List GPU) (isVulkan : Bool) (c : Calls) :
    (Bool × Option GoError) × Calls :=
  (h.primeIsAllowed gpus isVulkan, Calls.mk c.inventory (c.eligibility + 1))

/-- Go indexing `gpus[i]` with an `int` index: `none` stands for the
index-out-of-range panic (negative index, or index not below the length). -/
def index (gpus : List GPU) (i : Int) : Option GPU :=
  if 0 ≤ i then gpus[i.toNat]? else none

/-- Lines 26-34 of `pick.go`: bounds check, lookup, `ApplyEnv`. -/
def pickGpu (gpus : List GPU) (target : TargetGPU) (env : Env) (c : Calls) :
    Outcome × Calls :=
  if (gpus.length : Int) < wrapInt (target.Id + 1) then
    (Outcome.ret env (some (GoError.mk "gpu not found")), c)
  else
    match index gpus target.Id with
    | none => (Outcome.panic, c)
    | some gpu => (Outcome.ret (gpu.ApplyEnv env) none, c)

/-- The function `HandleGpu(target, env, isVulkan)` of `pick.go`, run on host
`h` with call counters `c`; it yields the outcome and the updated counters. -/
def HandleGpu (h : Host) (target : TargetGPU) (env : Env) (isVulkan : Bool)
    (c : Calls) : Outcome × Calls :=
  if target.Id = -1 then
    (Outcome.ret env none, c)
  else
    match GetSystemGPUs h c with
    | (gpus, c1) =>
      if target.Prime then
        match PrimeIsAllowed h gpus isVulkan c1 with
        | ((_, some err), c2) => (Outcome.ret env (some err), c2)
        | ((allowed, none), c2) =>
          if !allowed then (Outcome.ret env none, c2)
          else pickGpu gpus target env c2
      else
        pickGpu gpus target env c1

/-! ## `config.go` -/

/-- The assignment `m[k] = v` on a map. -/
def setKey (k v : String) (m : Env) : Env :=
  fun x => if x = k then some v else m x

/-- The empty map. -/
def emptyEnv : Env := fun _ => none

/-- A value of the `FFlags` table (`map[string]any`). -/
inductive AnyValue where
  | str (s : String)
  | int (i : Int)
  | bool (b : Bool)
deriving DecidableEq, Repr

/-- The struct `Directories`. -/
structure Directories where
  Cache : String
  Config : String
  Data : String
  Pfx : String
  Log : String
deriving DecidableEq, Repr

/-- The struct `Configuration`. -/
structure Configuration where
  Renderer : String
  ApplyRCO : Bool
  AutoRFPSU : Bool
  Dxvk : Bool
  GameMode : Bool
  Env : Vinegar.Env
  FFlags : String → Option AnyValue

/-- What `config.go` reads from its surroundings: `runtime.GOOS`, the global
`Dirs` computed by `defDirs`, and the library function `filepath.Join` on two
arguments. -/
structure Machine where
  GOOS : String
  Dirs : Directories
  Join : String → String → String

/-- The contents of a configuration file that `toml.DecodeFile` accepts: the
scalar keys it assigns (if any) and the entries of its `Env` and `FFlags`
tables. -/
structure TomlFile where
  Renderer : Option String
  ApplyRCO : Option Bool
  AutoRFPSU : Option Bool
  Dxvk : Option Bool
  GameMode : Option Bool
  Env : Vinegar.Env
  FFlags : String → Option AnyValue

/-- What `loadConfig` finds at `ConfigFilePath`: no file (`os.ErrNotExist`),
another `os.Stat` error, a file that `toml.DecodeFile` rejects, or a file that
decodes. -/
inductive FileStatus where
  | notExist
  | statError
  | undecodable
  | decoded (file : TomlFile)

/-- A Go map literal: the lookup function of a list of distinct keys. -/
def mapOfList (entries : List (String × String)) : Env :=
  fun k => entries.lookup k

/-- The map `base` after every entry of `over` has been assigned into it. -/
def overlay {α : Type} (over base : String → Option α) : String → Option α :=
  fun k => match over k with
    | some v => some v
    | none => base k

/-- The entries of the `config.Env` literal in `defConfig` (lines 90-108). -/
def defEnvEntries (m : Machine) : List (String × String) :=
  [ ("WINEPREFIX", m.Dirs.Pfx),
    ("WINEARCH", "win64"),
    ("WINEDEBUG", "-all"),
    ("WINEDLLOVERRIDES", "dxdiagn=d;winemenubuilder.exe=d;"),
    ("DXVK_LOG_LEVEL", "warn"),
    ("DXVK_LOG_PATH", "none"),
    ("DXVK_STATE_CACHE_PATH", m.Join m.Dirs.Cache "dxvk"),
    ("MESA_GL_VERSION_OVERRIDE", "4.4"),
    ("__GL_THREADED_OPTIMIZATIONS", "1"),
    ("DRI_PRIME", "1"),
    ("__NV_PRIME_RENDER_OFFLOAD", "1"),
    ("__VK_LAYER_NV_optimus", "NVIDIA_only"),
    ("__GLX_VENDOR_LIBRARY_NAME", "nvidia") ]

/-- The function `defConfig()`: the initial default configuration values. -/
def defConfig (m : Machine) : Configuration :=
  Configuration.mk "D3D11" true false true false
    (mapOfList (defEnvEntries m)) (fun _ => none)

/-- The call `toml.DecodeFile(ConfigFilePath, &config)` on a file that decodes:
a scalar key of the file replaces the field, and the entries of the tables
`Env` and `FFlags` are assigned into the maps already held by `config`, so a
key of the file wins over the same key of the defaults and the other default
keys stay. -/
def decodeInto (file : TomlFile) (config : Configuration) : Configuration :=
  Configuration.mk
    (file.Renderer.getD config.Renderer)
    (file.ApplyRCO.getD config.ApplyRCO)
    (file.AutoRFPSU.getD config.AutoRFPSU)
    (file.Dxvk.getD config.Dxvk)
    (file.GameMode.getD config.GameMode)
    (overlay file.Env config.Env)
    (overlay file.FFlags config.FFlags)

/-- The configuration with its `Env` map replaced. -/
def Configuration.withEnv (config : Configuration) (env : Vinegar.Env) : Configuration :=
  Configuration.mk config.Renderer config.ApplyRCO config.AutoRFPSU config.Dxvk
    config.GameMode env config.FFlags

/-- What a completed `loadConfig` leaves behind: the returned configuration,
the process environment after the `os.Setenv` loop, and whether
`writeConfigTemplate` was run. -/
structure Loaded where
  config : Configuration
  environ : Env
  wroteTemplate : Bool

/-- The function `loadConfig()`, started in process environment `environ`.
`none` stands for a run that does not return: `panic(err)` after a failing
`os.Stat`, and `Errc(err, ...)` on a decoding error (`Errc` is defined in
another file; it is taken to end the run on a non-nil error and to do nothing
on a nil one). -/
def loadConfig (m : Machine) (file : FileStatus) (environ : Env) : Option Loaded :=
  let config := defConfig m
  let step : Option (Configuration × Bool) :=
    match file with
    | FileStatus.notExist => some (config, true)
    | FileStatus.statError => none
    | FileStatus.undecodable => none
    | FileStatus.decoded f => some (decodeInto f config, false)
  match step with
  | none => none
  | some (config, wrote) =>
    let config :=
      if m.GOOS = "freebsd" then
        config.withEnv (setKey "WINE_NO_WOW64" "1" (setKey "WINEARCH" "win32" config.Env))
      else config
    some (Loaded.mk config (overlay config.Env environ) wrote)

/-! ## Sample inputs -/

/-- A sample FreeBSD machine. -/
def freebsdMachine : Machine :=
  Machine.mk "freebsd"
    (Directories.mk "/home/u/.cache/vinegar" "/home/u/.config/vinegar"
      "/home/u/.local/share/vinegar" "/home/u/.local/share/vinegar/pfx"
      "/home/u/.cache/vinegar/logs")
    (fun a b => a ++ "/" ++ b)

/-- A sample Linux machine. -/
def linuxMachine : Machine :=
  Machine.mk "linux" freebsdMachine.Dirs freebsdMachine.Join

/-- A sample configuration file whose only content is `WINEARCH = "win64"` in
its `Env` table. -/
def winearchFile : TomlFile :=
  TomlFile.mk none none none none none (setKey "WINEARCH" "win64" emptyEnv) (fun _ => none)

/-- A sample configuration file whose only content is `DRI_PRIME = "0"` in its
`Env` table. -/
def driPrimeFile : TomlFile :=
  TomlFile.mk none none none none none (setKey "DRI_PRIME" "0" emptyEnv) (fun _ => none)

/-- A sample configuration file whose only content is `WINEARCH = "win32"` in
its `Env` table. -/
def win32File : TomlFile :=
  TomlFile.mk none none none none none (setKey "WINEARCH" "win32" emptyEnv) (fun _ => none)

/-- A sample environment, `FOO=bar`. -/
def fooEnv : Env := setKey "FOO" "bar" emptyEnv

/-- A sample GPU whose `ApplyEnv` forces `DRI_PRIME=0`. -/
def gpu0 : GPU := GPU.mk (setKey "DRI_PRIME" "0")

/-- A sample GPU whose `ApplyEnv` forces `DRI_PRIME=1`. -/
def gpu1 : GPU := GPU.mk (setKey "DRI_PRIME" "1")

/-- A sample host with two GPUs, where offload is allowed exactly for Vulkan. -/
def demoHost : Host := Host.mk [gpu0, gpu1] (fun _ isVulkan => (isVulkan, none))

/-- A sample host whose eligibility check fails. -/
def failingHost : Host :=
  Host.mk [gpu0, gpu1] (fun _ _ => (false, some (GoError.mk "no prime")))

/-- Fresh call counters. -/
def noCalls : Calls := Calls.mk 0 0

/-! ## Properties of `HandleGpu` -/

/-- On a non-negative argument, wrapping never increases the value. -/
theorem wrapInt_le_self (x : Int) (hx : 0 ≤ x) : wrapInt x ≤ x := by
  unfold wrapInt
  omega

/-- Inside the range of a Go `int`, wrapping is the identity. -/
theorem wrapInt_of_isGoInt (x : Int) (hx : IsGoInt x) : wrapInt x = x := by
  unfold IsGoInt minInt maxInt at hx
  unfold wrapInt
  omega

/-- With a valid index, lines 26-34 apply the descriptor at that index. -/
theorem pickGpu_valid (gpus : List GPU) (target : TargetGPU) (env : Env) (c : Calls)
    (hlo : 0 ≤ target.Id) (hhi : target.Id < gpus.length) :
    ∃ g, gpus[target.Id.toNat]? = some g ∧
      pickGpu gpus target env c = (Outcome.ret (g.ApplyEnv env) none, c) := by
  have hw : wrapInt (target.Id + 1) ≤ target.Id + 1 := wrapInt_le_self _ (by omega)
  have hlt : target.Id.toNat < gpus.length := by omega
  refine ⟨gpus[target.Id.toNat], List.getElem?_eq_getElem hlt, ?_⟩
  have hnot : ¬ ((gpus.length : Int) < wrapInt (target.Id + 1)) := by omega
  simp [pickGpu, hnot, index, hlo, List.getElem?_eq_getElem hlt]

/-- An index that is a Go `int` below the largest one, and not below the
length of the inventory, is answered with the error `gpu not found`. -/
theorem pickGpu_not_found (gpus : List GPU) (target : TargetGPU) (env : Env) (c : Calls)
    (hge : (gpus.length : Int) ≤ target.Id) (hmax : target.Id < maxInt) :
    pickGpu gpus target env c =
      (Outcome.ret env (some (GoError.mk "gpu not found")), c) := by
  have hw : wrapInt (target.Id + 1) = target.Id + 1 := by
    apply wrapInt_of_isGoInt
    unfold IsGoInt minInt
    unfold maxInt at hmax ⊢
    omega
  have hlt : (gpus.length : Int) < wrapInt (target.Id + 1) := by omega
  simp [pickGpu, hlt]

/-- Lines 26-34 query no collaborator. -/
theorem pickGpu_calls (gpus : List GPU) (target : TargetGPU) (env : Env) (c : Calls) :
    (pickGpu gpus target env c).2 = c := by
  unfold pickGpu
  split
  · rfl
  · split <;> rfl

/-- The outcome of lines 26-34, case by case. -/
theorem pickGpu_fst (gpus : List GPU) (target : TargetGPU) (env : Env) (c : Calls) :
    (pickGpu gpus target env c).1 =
      if (gpus.length : Int) < wrapInt (target.Id + 1) then
        Outcome.ret env (some (GoError.mk "gpu not found"))
      else
        match index gpus target.Id with
        | none => Outcome.panic
        | some gpu => Outcome.ret (gpu.ApplyEnv env) none := by
  unfold pickGpu
  split
  · rfl
  · split <;> rfl

/-- The outcome of `HandleGpu`, case by case, without the call counters. -/
theorem HandleGpu_fst (h : Host) (target : TargetGPU) (env : Env) (isVulkan : Bool)
    (c : Calls) :
    (HandleGpu h target env isVulkan c).1 =
      if target.Id = -1 then Outcome.ret env none
      else if target.Prime = true then
        match h.primeIsAllowed h.gpus isVulkan with
        | (_, some err) => Outcome.ret env (some err)
        | (allowed, none) =>
          if allowed = false then Outcome.ret env none
          else (pickGpu h.gpus target env c).1
      else (pickGpu h.gpus target env c).1 := by
  unfold HandleGpu GetSystemGPUs PrimeIsAllowed
  by_cases hid : target.Id = -1
  · simp [hid]
  · cases hp : target.Prime
    · simp [hid, pickGpu_fst]
    · rcases hq : h.primeIsAllowed h.gpus isVulkan with ⟨allowed, err⟩
      cases err with
      | some e => simp [hid, hq]
      | none => cases allowed <;> simp [hid, hq, pickGpu_fst]

/-- C1: with the sentinel `Id = -1`, `HandleGpu` returns exactly the input
environment and a nil error, whatever the inventory, the eligibility checker,
the graphics-API hint and the offload flag are. -/
theorem C1_sentinel_returns_env (h : Host) (prime : Bool) (env : Env)
    (isVulkan : Bool) (c : Calls) :
    (HandleGpu h (TargetGPU.mk (-1) prime) env isVulkan c).1 = Outcome.ret env none := by
  simp [HandleGpu]

/-- C2: for a selection with `0 ≤ Id < len(gpus)`, when offload is not
requested, or is requested and the eligibility check returns `(true, nil)`,
`HandleGpu` returns `(gpus[Id].ApplyEnv(env), nil)`: the transformation of the
descriptor at position `Id`, applied once to the input environment. -/
theorem C2_valid_index_applies_descriptor (h : Host) (target : TargetGPU) (env : Env)
    (isVulkan : Bool) (c : Calls)
    (hlo : 0 ≤ target.Id) (hhi : target.Id < h.gpus.length)
    (hoff : target.Prime = false ∨ h.primeIsAllowed h.gpus isVulkan = (true, none)) :
    ∃ g, h.gpus[target.Id.toNat]? = some g ∧
      (HandleGpu h target env isVulkan c).1 = Outcome.ret (g.ApplyEnv env) none := by
  have hne : target.Id ≠ -1 := by omega
  cases hp : target.Prime with
  | false =>
    obtain ⟨g, hg, hpick⟩ := pickGpu_valid h.gpus target env
      (Calls.mk (c.inventory + 1) c.eligibility) hlo hhi
    exact ⟨g, hg, by simp [HandleGpu, hne, GetSystemGPUs, hp, hpick]⟩
  | true =>
    have hal : h.primeIsAllowed h.gpus isVulkan = (true, none) := by
      rcases hoff with hf | hal
      · rw [hp] at hf; cases hf
      · exact hal
    obtain ⟨g, hg, hpick⟩ := pickGpu_valid h.gpus target env
      (Calls.mk (c.inventory + 1) (c.eligibility + 1)) hlo hhi
    exact ⟨g, hg, by simp [HandleGpu, hne, GetSystemGPUs, PrimeIsAllowed, hp, hal, hpick]⟩

/-- Witness of C2: the second of two GPUs, offload not requested. -/
theorem C2_valid_index_applies_descriptor_witness :
    ∃ g, demoHost.gpus[(TargetGPU.mk 1 false).Id.toNat]? = some g ∧
      (HandleGpu demoHost (TargetGPU.mk 1 false) fooEnv false noCalls).1
        = Outcome.ret (g.ApplyEnv fooEnv) none :=
  C2_valid_index_applies_descriptor demoHost (TargetGPU.mk 1 false) fooEnv false noCalls
    (by decide) (by decide) (Or.inl rfl)

/-- Below the largest Go `int`, an index not below the length of the inventory
(offload not requested, or allowed) is answered with `gpu not found` and the
input environment. -/
theorem HandleGpu_not_found_below_maxInt (h : Host) (target : TargetGPU) (env : Env)
    (isVulkan : Bool) (c : Calls)
    (hge : (h.gpus.length : Int) ≤ target.Id) (hmax : target.Id < maxInt)
    (hoff : target.Prime = false ∨ h.primeIsAllowed h.gpus isVulkan = (true, none)) :
    (HandleGpu h target env isVulkan c).1 =
      Outcome.ret env (some (GoError.mk "gpu not found")) := by
  have hne : target.Id ≠ -1 := by omega
  cases hp : target.Prime with
  | false =>
    simp [HandleGpu, hne, GetSystemGPUs, hp, pickGpu_not_found h.gpus target env _ hge hmax]
  | true =>
    have hal : h.primeIsAllowed h.gpus isVulkan = (true, none) := by
      rcases hoff with hf | hal
      · rw [hp] at hf; cases hf
      · exact hal
    simp [HandleGpu, hne, GetSystemGPUs, PrimeIsAllowed, hp, hal,
      pickGpu_not_found h.gpus target env _ hge hmax]

/-- C3: at the largest Go `int`, `Id = 2^63 - 1`, which is not below the length
of the inventory and is not the sentinel, `Id + 1` wraps around to the smallest
`int`, the bounds check `len(gpus) < Id + 1` does not fire, and the lookup
`gpus[Id]` panics: no `gpu not found` error is returned. -/
theorem C3_largest_int_index_panics :
    IsGoInt maxInt ∧ (demoHost.gpus.length : Int) ≤ maxInt ∧ maxInt ≠ -1 ∧
      wrapInt (maxInt + 1) = minInt ∧
      (HandleGpu demoHost (TargetGPU.mk maxInt false) fooEnv false noCalls).1
        = Outcome.panic := by
  refine ⟨by decide, by decide, by decide, by decide, ?_⟩
  simp [HandleGpu, GetSystemGPUs, pickGpu, index, wrapInt, maxInt, demoHost]

/-- C4: at the negative index `Id = -2`, which is not the sentinel, the bounds
check `len(gpus) < Id + 1` does not fire (`2 < -1` is false), the lookup
`gpus[-2]` is reached and panics: no `gpu not found` error is returned. -/
theorem C4_negative_index_panics :
    IsGoInt (-2) ∧
      (HandleGpu demoHost (TargetGPU.mk (-2) false) fooEnv false noCalls).1
        = Outcome.panic := by
  refine ⟨by decide, ?_⟩
  simp [HandleGpu, GetSystemGPUs, pickGpu, index, wrapInt, demoHost]

/-- C5: with `Id ≠ -1` and offload requested, when the eligibility check
returns an error `e`, `HandleGpu` returns that very error together with the
input environment, whether or not `Id` is within the bounds of the inventory. -/
theorem C5_eligibility_error_propagates (h : Host) (target : TargetGPU) (env : Env)
    (isVulkan : Bool) (c : Calls) (allowed : Bool) (e : GoError)
    (hne : target.Id ≠ -1) (hp : target.Prime = true)
    (herr : h.primeIsAllowed h.gpus isVulkan = (allowed, some e)) :
    (HandleGpu h target env isVulkan c).1 = Outcome.ret env (some e) := by
  simp [HandleGpu, hne, GetSystemGPUs, PrimeIsAllowed, hp, herr]

/-- Witness of C5: an index far outside the inventory, on a host whose
eligibility check fails. -/
theorem C5_eligibility_error_propagates_witness :
    (HandleGpu failingHost (TargetGPU.mk 7 true) fooEnv true noCalls).1
      = Outcome.ret fooEnv (some (GoError.mk "no prime")) :=
  C5_eligibility_error_propagates failingHost (TargetGPU.mk 7 true) fooEnv true noCalls
    false (GoError.mk "no prime") (by decide) rfl rfl

/-- C6: with `Id ≠ -1` and offload requested, when the eligibility check
returns `(false, nil)`, `HandleGpu` returns exactly the input environment and a
nil error, for an index inside or outside the bounds of the inventory and for
an empty inventory alike. -/
theorem C6_offload_decline_returns_env (h : Host) (target : TargetGPU) (env : Env)
    (isVulkan : Bool) (c : Calls)
    (hne : target.Id ≠ -1) (hp : target.Prime = true)
    (hdecl : h.primeIsAllowed h.gpus isVulkan = (false, none)) :
    (HandleGpu h target env isVulkan c).1 = Outcome.ret env none := by
  simp [HandleGpu, hne, GetSystemGPUs, PrimeIsAllowed, hp, hdecl]

/-- Witness of C6: an empty inventory, offload requested and declined. -/
theorem C6_offload_decline_returns_env_witness :
    (HandleGpu (Host.mk [] (fun _ _ => (false, none))) (TargetGPU.mk 0 true)
        fooEnv false noCalls).1 = Outcome.ret fooEnv none :=
  C6_offload_decline_returns_env (Host.mk [] (fun _ _ => (false, none)))
    (TargetGPU.mk 0 true) fooEnv false noCalls (by decide) rfl rfl

/-- C7: with `Id = -1` the call counters are untouched (no inventory query, no
eligibility query); otherwise the inventory is queried exactly once and the
eligibility checker exactly once when offload is requested and not at all when
it is not; hence at most two queries are made in a call. -/
theorem C7_query_counts (h : Host) (target : TargetGPU) (env : Env)
    (isVulkan : Bool) (c : Calls) :
    (HandleGpu h target env isVulkan c).2 =
        (if target.Id = -1 then c
         else Calls.mk (c.inventory + 1)
                (c.eligibility + (if target.Prime then 1 else 0))) ∧
      (HandleGpu h target env isVulkan c).2.inventory
          + (HandleGpu h target env isVulkan c).2.eligibility
        ≤ c.inventory + c.eligibility + 2 := by
  have key : (HandleGpu h target env isVulkan c).2 =
        (if target.Id = -1 then c
         else Calls.mk (c.inventory + 1)
                (c.eligibility + (if target.Prime then 1 else 0))) := by
    unfold HandleGpu GetSystemGPUs PrimeIsAllowed
    by_cases hid : target.Id = -1
    · simp [hid]
    · cases hp : target.Prime
      · simp [hid, pickGpu_calls]
      · rcases hq : h.primeIsAllowed h.gpus isVulkan with ⟨allowed, err⟩
        cases err with
        | some e => simp [hid, hq]
        | none => cases allowed <;> simp [hid, hq, pickGpu_calls]
  refine ⟨key, ?_⟩
  rw [key]
  by_cases hid : target.Id = -1
  · simp [hid]
  · cases hp : target.Prime <;> simp [hid] <;> omega

/-- C8: let `K` be a key set such that the `ApplyEnv` of the selected descriptor
leaves every key outside `K` with its value. Whenever `HandleGpu` returns
`(env1, err)`: if `err` is nil, every key of the input environment outside `K`
is in `env1` with its original value; and on the sentinel path, on the
offload-decline path and on both error paths `env1` is the input environment
itself (every key kept, none added). -/
theorem C8_non_destructive (h : Host) (target : TargetGPU) (env : Env)
    (isVulkan : Bool) (c : Calls) (K : List String) (env1 : Env) (err : Option GoError)
    (hK : ∀ g, index h.gpus target.Id = some g →
      ∀ (m : Env) (k : String), k ∉ K → g.ApplyEnv m k = m k)
    (hret : (HandleGpu h target env isVulkan c).1 = Outcome.ret env1 err) :
    (err = none → ∀ k v, env k = some v → k ∉ K → env1 k = some v) ∧
      ((target.Id = -1 ∨
          (target.Prime = true ∧ h.primeIsAllowed h.gpus isVulkan = (false, none)) ∨
          err ≠ none) → env1 = env) := by
  rw [HandleGpu_fst, pickGpu_fst] at hret
  by_cases hid : target.Id = -1
  · simp only [hid, if_true, Outcome.ret.injEq] at hret
    obtain ⟨rfl, rfl⟩ := hret
    exact ⟨fun _ k v hkv _ => hkv, fun _ => rfl⟩
  · rcases hq : h.primeIsAllowed h.gpus isVulkan with ⟨allowed, perr⟩
    have pick : ∀ (e1 : Env) (er : Option GoError),
        (if (h.gpus.length : Int) < wrapInt (target.Id + 1) then
            Outcome.ret env (some (GoError.mk "gpu not found"))
          else
            match index h.gpus target.Id with
            | none => Outcome.panic
            | some gpu => Outcome.ret (gpu.ApplyEnv env) none) = Outcome.ret e1 er →
        (er = none → ∀ k v, env k = some v → k ∉ K → e1 k = some v) ∧
          (er ≠ none → e1 = env) := by
      intro e1 er hpick
      split at hpick
      · simp only [Outcome.ret.injEq] at hpick
        obtain ⟨rfl, rfl⟩ := hpick
        exact ⟨fun _ k v hkv _ => hkv, fun _ => rfl⟩
      · cases hi : index h.gpus target.Id with
        | none => rw [hi] at hpick; cases hpick
        | some g =>
          rw [hi] at hpick
          simp only [Outcome.ret.injEq] at hpick
          obtain ⟨rfl, rfl⟩ := hpick
          refine ⟨fun _ k v hkv hk => ?_, fun hne => absurd rfl hne⟩
          rw [hK g hi env k hk]
          exact hkv
    cases hp : target.Prime with
    | false =>
      simp only [hid, hp, if_false, Bool.false_eq_true] at hret
      obtain ⟨h1, h2⟩ := pick env1 err hret
      refine ⟨h1, ?_⟩
      rintro (h3 | ⟨h3, _⟩ | h3)
      · exact absurd h3 hid
      · cases h3
      · exact h2 h3
    | true =>
      simp only [hid, hp, hq, if_false, if_true] at hret
      cases perr with
      | some e =>
        simp only [Outcome.ret.injEq] at hret
        obtain ⟨rfl, rfl⟩ := hret
        exact ⟨fun _ k v hkv _ => hkv, fun _ => rfl⟩
      | none =>
        cases allowed with
        | false =>
          simp only [if_true, Outcome.ret.injEq] at hret
          obtain ⟨rfl, rfl⟩ := hret
          exact ⟨fun _ k v hkv _ => hkv, fun _ => rfl⟩
        | true =>
          simp only [Bool.true_eq_false, if_false] at hret
          obtain ⟨h1, h2⟩ := pick env1 err hret
          refine ⟨h1, ?_⟩
          rintro (h3 | ⟨_, h3⟩ | h3)
          · exact absurd h3 hid
          · simp at h3
          · exact h2 h3

/-- Witness of C8: the second sample GPU touches `DRI_PRIME` only, and `FOO`
keeps its value. -/
theorem C8_non_destructive_witness :
    (HandleGpu demoHost (TargetGPU.mk 1 false) fooEnv false noCalls).1
        = Outcome.ret (gpu1.ApplyEnv fooEnv) none ∧
      gpu1.ApplyEnv fooEnv "FOO" = some "bar" := by
  have hret : (HandleGpu demoHost (TargetGPU.mk 1 false) fooEnv false noCalls).1
      = Outcome.ret (gpu1.ApplyEnv fooEnv) none := by
    simp [HandleGpu, GetSystemGPUs, pickGpu, index, wrapInt, demoHost]
  have hK : ∀ g, index demoHost.gpus (TargetGPU.mk 1 false).Id = some g →
      ∀ (m : Env) (k : String), k ∉ ["DRI_PRIME"] → g.ApplyEnv m k = m k := by
    intro g hg m k hk
    have hg1 : g = gpu1 := by
      simp [index, demoHost] at hg
      exact hg.symm
    subst hg1
    have hne : k ≠ "DRI_PRIME" := by simpa using hk
    simp [gpu1, setKey, hne]
  exact ⟨hret,
    (C8_non_destructive demoHost (TargetGPU.mk 1 false) fooEnv false noCalls
      ["DRI_PRIME"] (gpu1.ApplyEnv fooEnv) none hK hret).1 rfl "FOO" "bar"
      (by simp [fooEnv, setKey]) (by decide)⟩

/-- C9: for a fixed inventory and eligibility checker, and every descriptor
having an idempotent `ApplyEnv`, whenever `HandleGpu(sel, env, v)` returns
`(env1, err)`, with `err` nil or not, the call `HandleGpu(sel, env1, v)` on the
returned map returns `(env1, err)` again. -/
theorem C9_resolution_idempotent (h : Host) (target : TargetGPU) (env : Env)
    (isVulkan : Bool) (c c0 : Calls) (env1 : Env) (err : Option GoError)
    (hidem : ∀ g ∈ h.gpus, ∀ m : Env, g.ApplyEnv (g.ApplyEnv m) = g.ApplyEnv m)
    (hret : (HandleGpu h target env isVulkan c).1 = Outcome.ret env1 err) :
    (HandleGpu h target env1 isVulkan c0).1 = Outcome.ret env1 err := by
  rw [HandleGpu_fst, pickGpu_fst] at hret ⊢
  have pick : ∀ (e1 : Env) (er : Option GoError),
      (if (h.gpus.length : Int) < wrapInt (target.Id + 1) then
          Outcome.ret env (some (GoError.mk "gpu not found"))
        else
          match index h.gpus target.Id with
          | none => Outcome.panic
          | some gpu => Outcome.ret (gpu.ApplyEnv env) none) = Outcome.ret e1 er →
      (if (h.gpus.length : Int) < wrapInt (target.Id + 1) then
          Outcome.ret e1 (some (GoError.mk "gpu not found"))
        else
          match index h.gpus target.Id with
          | none => Outcome.panic
          | some gpu => Outcome.ret (gpu.ApplyEnv e1) none) = Outcome.ret e1 er := by
    intro e1 er hpick
    by_cases hlt : (h.gpus.length : Int) < wrapInt (target.Id + 1)
    · simp only [hlt, if_true, Outcome.ret.injEq] at hpick ⊢
      exact ⟨trivial, hpick.2⟩
    · simp only [hlt, if_false] at hpick ⊢
      cases hi : index h.gpus target.Id with
      | none => rw [hi] at hpick; cases hpick
      | some g =>
        rw [hi] at hpick
        simp only [Outcome.ret.injEq] at hpick ⊢
        obtain ⟨rfl, rfl⟩ := hpick
        have hmem : g ∈ h.gpus := by
          unfold index at hi
          split at hi
          · exact List.getElem?_mem hi
          · cases hi
        exact ⟨hidem g hmem env, rfl⟩
  by_cases hid : target.Id = -1
  · simp only [hid, if_true, Outcome.ret.injEq] at hret ⊢
    exact ⟨trivial, hret.2⟩
  · rcases hq : h.primeIsAllowed h.gpus isVulkan with ⟨allowed, perr⟩
    cases hp : target.Prime with
    | false =>
      simp only [hid, hp, if_false, Bool.false_eq_true] at hret ⊢
      exact pick env1 err hret
    | true =>
      simp only [hid, hp, hq, if_false, if_true] at hret ⊢
      cases perr with
      | some e =>
        simp only [Outcome.ret.injEq] at hret ⊢
        exact ⟨trivial, hret.2⟩
      | none =>
        cases allowed with
        | false =>
          simp only [if_true, Outcome.ret.injEq] at hret ⊢
          exact ⟨trivial, hret.2⟩
        | true =>
          simp only [Bool.true_eq_false, if_false] at hret ⊢
          exact pick env1 err hret

/-- Witness of C9: the second sample GPU, whose `ApplyEnv` sets one key to a
constant. -/
theorem C9_resolution_idempotent_witness :
    (HandleGpu demoHost (TargetGPU.mk 1 false) fooEnv false noCalls).1
        = Outcome.ret (gpu1.ApplyEnv fooEnv) none ∧
      (HandleGpu demoHost (TargetGPU.mk 1 false) (gpu1.ApplyEnv fooEnv) false noCalls).1
        = Outcome.ret (gpu1.ApplyEnv fooEnv) none := by
  have hret : (HandleGpu demoHost (TargetGPU.mk 1 false) fooEnv false noCalls).1
      = Outcome.ret (gpu1.ApplyEnv fooEnv) none := by
    simp [HandleGpu, GetSystemGPUs, pickGpu, index, wrapInt, demoHost]
  have hidem : ∀ g ∈ demoHost.gpus, ∀ m : Env, g.ApplyEnv (g.ApplyEnv m) = g.ApplyEnv m := by
    intro g hg m
    simp only [demoHost, List.mem_cons, List.mem_singleton, List.not_mem_nil, or_false] at hg
    rcases hg with rfl | rfl <;> funext k <;>
      by_cases hk : k = "DRI_PRIME" <;> simp [gpu0, gpu1, setKey, hk]
  exact ⟨hret,
    C9_resolution_idempotent demoHost (TargetGPU.mk 1 false) fooEnv false noCalls noCalls
      (gpu1.ApplyEnv fooEnv) none hidem hret⟩

/-! ## Properties of `loadConfig` -/

/-- C10: on FreeBSD, with a configuration file that assigns `win64` to the
default key `WINEARCH`, `loadConfig` returns a configuration whose
`Env["WINEARCH"]` is `win32`: the assignment made after decoding replaces the
value of the file, against the note on the defaults ("these can be overrided
by the user") and the comment of `loadConfig` ("user's variables and fflags can
override"). -/
theorem C10_freebsd_resets_winearch :
    ((defConfig freebsdMachine).Env "WINEARCH").isSome = true ∧
      winearchFile.Env "WINEARCH" = some "win64" ∧
      (loadConfig freebsdMachine (FileStatus.decoded winearchFile) emptyEnv).map
          (fun r => r.config.Env "WINEARCH") = some (some "win32") ∧
      ¬ (∃ r, loadConfig freebsdMachine (FileStatus.decoded winearchFile) emptyEnv = some r ∧
          r.config.Env "WINEARCH" = some "win64") := by
  refine ⟨?_, ?_, ?_, ?_⟩
  · simp [defConfig, mapOfList, defEnvEntries, List.lookup]
  · simp [winearchFile, setKey]
  · simp [loadConfig, freebsdMachine, Configuration.withEnv, setKey]
  · rintro ⟨r, hr, hv⟩
    simp only [loadConfig, freebsdMachine, if_true, Option.some.injEq] at hr
    subst hr
    simp [Configuration.withEnv, setKey] at hv

/-- What `loadConfig` returns under a default key `k` that the configuration
file assigns `v` to: the value `v` of the file, on every `runtime.GOOS`, with
the single exception of `WINEARCH` on FreeBSD, which comes back as `win32`. -/
theorem loadConfig_env_of_user_key (m : Machine) (file : TomlFile) (environ : Env)
    (k v : String)
    (hk : ((defConfig m).Env k).isSome = true) (hv : file.Env k = some v) :
    ∃ r, loadConfig m (FileStatus.decoded file) environ = some r ∧
      r.config.Env k =
        some (if m.GOOS = "freebsd" ∧ k = "WINEARCH" then "win32" else v) := by
  have hwow : k ≠ "WINE_NO_WOW64" := by
    rintro rfl
    simp [defConfig, mapOfList, defEnvEntries, List.lookup] at hk
  by_cases hos : m.GOOS = "freebsd"
  · refine ⟨_, (by simp only [loadConfig, hos, if_true]; rfl), ?_⟩
    by_cases hka : k = "WINEARCH"
    · simp [Configuration.withEnv, setKey, hka, hos]
    · simp [Configuration.withEnv, setKey, hka, hos, hwow, decodeInto, overlay, hv]
  · refine ⟨_, (by simp only [loadConfig, hos, if_false]; rfl), ?_⟩
    simp [hos, decodeInto, overlay, hv]

/-- On FreeBSD, a file that assigns `0` to `DRI_PRIME` (default `1`) does
override the default: only `WINEARCH` is reset. -/
theorem loadConfig_freebsd_dri_prime_overridden :
    (defConfig freebsdMachine).Env "DRI_PRIME" = some "1" ∧
      ∃ r, loadConfig freebsdMachine (FileStatus.decoded driPrimeFile) emptyEnv = some r ∧
        r.config.Env "DRI_PRIME" = some "0" := by
  refine ⟨by simp [defConfig, mapOfList, defEnvEntries, List.lookup], ?_⟩
  obtain ⟨r, hr, hv⟩ := loadConfig_env_of_user_key freebsdMachine driPrimeFile emptyEnv
    "DRI_PRIME" "0"
    (by simp [defConfig, mapOfList, defEnvEntries, List.lookup])
    (by simp [driPrimeFile, setKey])
  exact ⟨r, hr, by simpa using hv⟩

/-- On Linux, a file that assigns `win32` to `WINEARCH` (default `win64`) does
override the default. -/
theorem loadConfig_linux_winearch_overridden :
    (defConfig linuxMachine).Env "WINEARCH" = some "win64" ∧
      ∃ r, loadConfig linuxMachine (FileStatus.decoded win32File) emptyEnv = some r ∧
        r.config.Env "WINEARCH" = some "win32" := by
  refine ⟨by simp [defConfig, mapOfList, defEnvEntries, List.lookup], ?_⟩
  obtain ⟨r, hr, hv⟩ := loadConfig_env_of_user_key linuxMachine win32File emptyEnv
    "WINEARCH" "win32"
    (by simp [defConfig, mapOfList, defEnvEntries, List.lookup])
    (by simp [win32File, setKey])
  exact ⟨r, hr, by simpa [linuxMachine] using hv⟩

end Vinegar
